import Mathlib

/-! Shallow embedding of the game/dispatch core of `src/app.py`
(BOMB CHIP CHALLENGE, single-file Flask application).

Embedded parts:
* `GameInstance` / `process_move` — the game logic engine (app.py §3).
* `get_stats` / `update_stats` — the in-memory stats store (app.py §5).
* `handle_command` — the main command processor (app.py §5).
* A Connection Supervisor state machine, modelled from the specification
  (that component has no code under `src/`).

Modelling conventions:
* Python dicts `USERS_DB` / `GAME_SESSIONS` become functions to `Option`.
* `random.shuffle` of the grid is modelled by passing the shuffled grid as
  an explicit argument; `validShuffle` characterises its possible outputs
  (any permutation of the initial deck).
* Wall-clock fields (`start_time`, `last_interaction`, `created_at`) and the
  Pillow-rendered image blob are I/O artifacts outside the pure embedding;
  an image response is modelled by its caption.
* Python `cmd.strip().lower()` is modelled by `pyNormalize` and `int(cmd)`
  by `pyInt?` (optional sign + decimal digits; a `ValueError` is `none`),
  both written as plain recursion over the character list so that concrete
  inputs evaluate inside the kernel. ASCII case folding suffices for the
  command keywords involved.
-/

/-- Whitespace as recognised by Python `str.strip()` (ASCII subset). -/
def isSpaceChar (c : Char) : Bool :=
  c = ' ' ∨ c = '\t' ∨ c = '\n' ∨ c = '\r'

/-- Drop leading whitespace from a character list. -/
def dropLeadingSpace : List Char → List Char
  | [] => []
  | c :: cs => if isSpaceChar c then dropLeadingSpace cs else c :: cs

/-- Python `str.strip()` on the character list: drop leading and trailing
whitespace. -/
def stripChars (l : List Char) : List Char :=
  (dropLeadingSpace (dropLeadingSpace l).reverse).reverse

/-- ASCII lower-casing of one character (Python `str.lower()` restricted to
the ASCII range used by the command keywords). -/
def asciiLower (c : Char) : Char :=
  if c.isUpper then Char.ofNat (c.toNat + 32) else c

/-- Python `cmd.strip().lower()` (app.py line 301). -/
def pyNormalize (s : String) : String :=
  ⟨(stripChars s.data).map asciiLower⟩

/-- Decimal digit test, Python `int()` style. -/
def isDigitChar (c : Char) : Bool :=
  '0' ≤ c ∧ c ≤ '9'

/-- Python `int(s)`: optional surrounding whitespace, optional sign, one or
more decimal digits (underscore grouping not modelled); a `ValueError`
becomes `none`. -/
def pyInt? (s : String) : Option Int :=
  let t := stripChars s.data
  let core :=
    match t with
    | '-' :: rest => rest
    | '+' :: rest => rest
    | _ => t
  let neg : Bool :=
    match t with
    | '-' :: _ => true
    | _ => false
  if core ≠ [] ∧ core.all isDigitChar then
    let n : Nat := core.foldl (fun acc c => acc * 10 + (c.toNat - 48)) 0
    some (if neg then -(n : Int) else (n : Int))
  else
    none

/-- State of one `GameInstance` (app.py lines 48-70), without the two
wall-clock timestamp fields. `grid` entries: 0 = safe, 1 = bomb. -/
structure GameInstance where
  user_id : String
  total_chips : Nat
  bomb_count : Nat
  grid : List Nat
  revealed : List Bool
  status : String
  score_gain : Int
  message : String
deriving Repr, DecidableEq

/-- The deck built in `GameInstance.__init__` before shuffling:
`[0] * (total_chips - bomb_count) + [1] * bomb_count` with 12 chips, 3 bombs. -/
def initDeck : List Nat :=
  List.replicate (12 - 3) 0 ++ List.replicate 3 1

/-- Model of `random.shuffle`: it produces exactly the permutations of the initial deck. -/
def validShuffle (g : List Nat) : Prop :=
  g.Perm initDeck

instance (g : List Nat) : Decidable (validShuffle g) := by
  unfold validShuffle; infer_instance

/-- Constructor `GameInstance.__init__(user_id)` with the shuffle outcome `g` passed
explicitly. -/
def mkGameInstance (uid : String) (g : List Nat) : GameInstance :=
  { user_id := uid
    total_chips := 12
    bomb_count := 3
    grid := g
    revealed := List.replicate 12 false
    status := "ACTIVE"
    score_gain := 0
    message := "Game Started. Good Luck." }

/-- Count `sum(1 for i in range(total_chips) if revealed[i] and grid[i] == 0)`
(app.py line 92). -/
def countSafeFound (g : GameInstance) : Nat :=
  ((List.range g.total_chips).filter
    (fun i => g.revealed.getD i false && (g.grid.getD i 0 == 0))).length

/-- Move handler `GameInstance.process_move(chip_index)` (app.py lines 72-100).
Python mutates `self` in place; here the updated instance is returned
alongside the result string. -/
def process_move (g : GameInstance) (chip_index : Int) : GameInstance × String :=
  if ¬ (0 ≤ chip_index ∧ chip_index < (g.total_chips : Int)) then
    (g, "INVALID_INDEX")
  else if g.revealed.getD chip_index.toNat false = true then
    (g, "ALREADY_OPEN")
  else
    let g1 := { g with revealed := g.revealed.set chip_index.toNat true }
    if g.grid.getD chip_index.toNat 0 = 1 then
      ({ g1 with status := "LOST", score_gain := -50 }, "BOMB")
    else
      if countSafeFound g1 = g.total_chips - g.bomb_count then
        ({ g1 with status := "WON", score_gain := 100 }, "WIN")
      else
        ({ g1 with score_gain := 10 }, "SAFE")

/-- One `USERS_DB` record (app.py lines 273-283), without the wall-clock
`created_at` field. -/
structure UserStats where
  name : String
  avatar : String
  score : Int
  wins : Nat
  losses : Nat
  bombs : Nat
  total_games : Nat
deriving Repr, DecidableEq

/-- Dictionary `USERS_DB` as a finite-support map. -/
def UsersDB : Type := String → Option UserStats

/-- Function `get_stats(uid, name, avatar)` (app.py lines 270-284): create-if-absent,
returning the (possibly new) database together with the record. -/
def get_stats (db : UsersDB) (uid name avatar : String) : UsersDB × UserStats :=
  match db uid with
  | some u => (db, u)
  | none =>
    let u : UserStats :=
      { name := name, avatar := avatar, score := 0, wins := 0, losses := 0
        bombs := 0, total_games := 0 }
    (fun k => if k = uid then some u else db k, u)

/-- Function `update_stats(uid, result, score_change)` (app.py lines 286-297). -/
def update_stats (db : UsersDB) (uid result : String) (score_change : Int) :
    UsersDB :=
  match db uid with
  | none => db
  | some u0 =>
    let u1 := { u0 with score := max 0 (u0.score + score_change) }
    let u2 := if result = "WIN" then { u1 with wins := u1.wins + 1 } else u1
    let u3 :=
      if result = "LOST" then
        { u2 with losses := u2.losses + 1, bombs := u2.bombs + 1 }
      else u2
    let u4 :=
      if result = "WIN" ∨ result = "LOST" then
        { u3 with total_games := u3.total_games + 1 }
      else u3
    fun k => if k = uid then some u4 else db k

/-- One reply item produced by `handle_command`. An image reply carries a
rendered board blob in the code; the blob is opaque here, so the image is
represented by its caption. -/
inductive Response where
  | image (caption : String)
  | text (content : String)
  | link (content : String) (linkText : String)
deriving Repr, DecidableEq

/-- The shared mutable state touched by `handle_command`:
`GAME_SESSIONS` and `USERS_DB`. -/
structure BotState where
  sessions : String → Option GameInstance
  users : UsersDB

/-- The "Standard Commands" tail of `handle_command` (app.py lines 343-351),
reached when the message is neither a start command nor a routed move. -/
def standard_commands (st : BotState) (uid cmd : String) :
    BotState × List Response :=
  if cmd = "/score" then
    let r := get_stats st.users uid "Agent" ""
    ({ st with users := r.1 },
     [Response.text ("📝 <b>DOSSIER: " ++ r.2.name ++ "</b><br>Score: "
        ++ toString r.2.score ++ "<br>Wins: " ++ toString r.2.wins
        ++ " | Losses: " ++ toString r.2.losses)])
  else if cmd = "/ladder" ∨ cmd = "/leaderboard" then
    (st, [Response.link "/leaderboard" "🌐 OPEN GLOBAL LEADERBOARD"])
  else
    (st, [Response.text
      "🤖 System: Unknown Command.<br>Type <b>/bombchip</b> to start."])

/-- The game-move block of `handle_command` (app.py lines 314-341): the code
executed when `uid` holds an `ACTIVE` session and `int(cmd)` succeeded with
value `v`. Python mutates the stored `GameInstance` in place, so the
post-move instance is written back to the session map on every branch. -/
def routed_move (st : BotState) (uid : String) (game : GameInstance)
    (v : Int) : BotState × List Response :=
  let val : Int := v - 1
  let moved := process_move game val
  let game2 := moved.1
  let res := moved.2
  let st1 : BotState :=
    { st with
      sessions := fun k => if k = uid then some game2 else st.sessions k }
  if res = "INVALID_INDEX" then
    (st1, [Response.text "🚫 Invalid Chip ID. Range: 1-12"])
  else if res = "ALREADY_OPEN" then
    (st1, [Response.text "🚫 Chip already eaten. Pick another."])
  else
    let st2 : BotState :=
      { st1 with
        users := update_stats st1.users uid game2.status game2.score_gain }
    if game2.status = "WON" then
      ({ st2 with
         sessions := fun k => if k = uid then none else st.sessions k },
       [Response.image
         "🏆 <b>MISSION ACCOMPLISHED!</b><br>+100 Bonus. /bombchip to replay."])
    else if game2.status = "LOST" then
      ({ st2 with
         sessions := fun k => if k = uid then none else st.sessions k },
       [Response.image
         "💥 <b>CRITICAL FAILURE!</b><br>Bomb Detonated. Score Deducted."])
    else
      (st2, [Response.image "✅ <b>SAFE!</b> Proceed with caution..."])

/-- Dispatcher `handle_command(uid, cmd, name, avatar)` (app.py lines 299-351).
`freshGrid` is the shuffle outcome used if a new `GameInstance` is created.
Python mutates the stored `GameInstance` in place, so the post-move instance
is written back to the session map on every executed branch. -/
def handle_command (st : BotState) (uid cmdRaw name avatar : String)
    (freshGrid : List Nat) : BotState × List Response :=
  let cmd := pyNormalize cmdRaw
  if cmd = "/bombchip" then
    let game := mkGameInstance uid freshGrid
    ({ st with sessions := fun k => if k = uid then some game else st.sessions k },
     [Response.image
       "⚠️ <b>MISSION START</b><br>There are 3 Hidden Bombs.<br>Tap a number or type 1-12."])
  else
    match st.sessions uid with
    | some game =>
      if game.status = "ACTIVE" then
        match pyInt? cmd with
        | some v => routed_move st uid game v
        | none => standard_commands st uid cmd
      else standard_commands st uid cmd
    | none => standard_commands st uid cmd

/-- Modelled from the spec: the Connection Supervisor (spec section 4.5) has
no code under `src/` (this repository variant ships only the HTTP surface),
so its states are taken from the specification text: Disconnected,
Connecting, Authenticating, JoinedRoom. -/
inductive ConnState where
  | disconnected
  | connecting
  | authenticating
  | joinedRoom
deriving Repr, DecidableEq

/-- Modelled from the spec: inbound events consumed by the Connection
Supervisor (spec sections 4.5 and 6): activation / reconnect timer,
transport-level open, login success, login failure, transport close or
error, a room text message, and any unrecognised event. -/
inductive ConnEvent where
  | activate
  | transportOpen
  | loginSuccess
  | loginFailure
  | transportClose
  | roomText (sender body : String)
  | unrecognised
deriving Repr, DecidableEq

/-- Modelled from the spec: outbound commands of the Connection Supervisor
(spec section 6): login request, room-join request, heartbeat ping, and a
room message. -/
inductive OutMsg where
  | login
  | roomJoin
  | ping
  | roomMessage (body : String)
deriving Repr, DecidableEq

/-- Modelled from the spec: one transition of the Connection Supervisor
(spec section 4.5), returning the next state and the outbound commands sent
during the transition. A close tears the connection down from any state;
every event not recognised by this layer is ignored. -/
def connStep : ConnState → ConnEvent → ConnState × List OutMsg
  | _, ConnEvent.transportClose => (ConnState.disconnected, [])
  | ConnState.disconnected, ConnEvent.activate => (ConnState.connecting, [])
  | ConnState.connecting, ConnEvent.transportOpen =>
      (ConnState.authenticating, [OutMsg.login])
  | ConnState.authenticating, ConnEvent.loginSuccess =>
      (ConnState.joinedRoom, [OutMsg.roomJoin])
  | ConnState.authenticating, ConnEvent.loginFailure =>
      (ConnState.disconnected, [])
  | s, _ => (s, [])

/-- Run the Connection Supervisor over a list of inbound events, collecting
every outbound command sent along the way. -/
def connRun (s : ConnState) : List ConnEvent → ConnState × List OutMsg
  | [] => (s, [])
  | e :: es =>
    let step := connStep s e
    let rest := connRun step.1 es
    (rest.1, step.2 ++ rest.2)

/-- A shuffle outcome with a bomb on chip 1 (list index 0). -/
def gridBombAt0 : List Nat := [1, 0, 0, 0, 0, 0, 0, 0, 0, 0, 1, 1]

/-- A shuffle outcome with the three bombs on chips 10-12 (indices 9-11). -/
def gridBombsAtEnd : List Nat := [0, 0, 0, 0, 0, 0, 0, 0, 0, 1, 1, 1]

/-- A board over `gridBombsAtEnd` with the first eight safe chips revealed. -/
def gEightSafe : GameInstance :=
  { mkGameInstance "u" gridBombsAtEnd with
      revealed := [true, true, true, true, true, true, true, true,
                   false, false, false, false]
      score_gain := 10 }

/-- A finished (lost) board: the bomb on chip 2 was revealed. -/
def gLost : GameInstance :=
  { mkGameInstance "u" [0, 1, 0, 0, 0, 0, 0, 0, 0, 0, 1, 1] with
      revealed := [false, true, false, false, false, false, false, false,
                   false, false, false, false]
      status := "LOST"
      score_gain := -50 }

/-- An in-progress board with chip 1 already revealed (a safe chip). -/
def gOneRevealed : GameInstance :=
  { mkGameInstance "u" gridBombsAtEnd with
      revealed := [true, false, false, false, false, false, false, false,
                   false, false, false, false]
      score_gain := 10 }

/-- The bot state with no sessions and no users. -/
def stEmpty : BotState := { sessions := fun _ => none, users := fun _ => none }

/-- A user record holding 30 points. -/
def uThirty : UserStats :=
  { name := "Agent", avatar := "", score := 30, wins := 0, losses := 1
    bombs := 1, total_games := 1 }

/-- A user database with one record, `"u"`, at 30 points. -/
def dbThirty : UsersDB := fun k => if k = "u" then some uThirty else none

/-- A bot state with an in-progress game and a 30-point record for `"u"`. -/
def stOneRevealed : BotState :=
  { sessions := fun k => if k = "u" then some gOneRevealed else none
    users := dbThirty }

/-- A bot state with the lost board `gLost` still stored for `"u"`. -/
def stLost : BotState :=
  { sessions := fun k => if k = "u" then some gLost else none
    users := dbThirty }

/-! ## Helper lemmas about the embedded operations -/

/-- An out-of-range index is rejected with `INVALID_INDEX` and no mutation. -/
theorem process_move_invalid (g : GameInstance) (i : Int)
    (h : ¬ (0 ≤ i ∧ i < (g.total_chips : Int))) :
    process_move g i = (g, "INVALID_INDEX") := by
  unfold process_move
  rw [if_pos h]

/-- An already-revealed index is rejected with `ALREADY_OPEN` and no
mutation. -/
theorem process_move_already_open (g : GameInstance) (i : Int)
    (h0 : 0 ≤ i) (h1 : i < (g.total_chips : Int))
    (hrev : g.revealed.getD i.toNat false = true) :
    process_move g i = (g, "ALREADY_OPEN") := by
  unfold process_move
  rw [if_neg (not_not_intro ⟨h0, h1⟩), if_pos hrev]

/-- Unfolding of `process_move` on an accepted move: in range and not yet
revealed. -/
theorem process_move_accepted (g : GameInstance) (i : Int)
    (h0 : 0 ≤ i) (h1 : i < (g.total_chips : Int))
    (hrev : g.revealed.getD i.toNat false = false) :
    process_move g i =
      (if g.grid.getD i.toNat 0 = 1 then
        ({ g with revealed := g.revealed.set i.toNat true,
                  status := "LOST", score_gain := -50 }, "BOMB")
      else if countSafeFound
          { g with revealed := g.revealed.set i.toNat true }
          = g.total_chips - g.bomb_count then
        ({ g with revealed := g.revealed.set i.toNat true,
                  status := "WON", score_gain := 100 }, "WIN")
      else
        ({ g with revealed := g.revealed.set i.toNat true,
                  score_gain := 10 }, "SAFE")) := by
  unfold process_move
  rw [if_neg (not_not_intro ⟨h0, h1⟩), if_neg (by rw [hrev]; exact Bool.false_ne_true)]

/-- Result classification of `process_move`: each accepted result fixes the
score delta and the status written by the move. -/
theorem process_move_result_spec (g : GameInstance) (i : Int) :
    ((process_move g i).2 = "BOMB" →
      (process_move g i).1.score_gain = -50 ∧
      (process_move g i).1.status = "LOST") ∧
    ((process_move g i).2 = "WIN" →
      (process_move g i).1.score_gain = 100 ∧
      (process_move g i).1.status = "WON") ∧
    ((process_move g i).2 = "SAFE" →
      (process_move g i).1.score_gain = 10 ∧
      (process_move g i).1.status = g.status) := by
  unfold process_move
  dsimp only
  split_ifs <;> dsimp only <;>
    refine ⟨fun hh => ?_, fun hh => ?_, fun hh => ?_⟩ <;>
    first
      | exact absurd hh (by decide)
      | exact ⟨rfl, rfl⟩

/-- The score stored by `update_stats` for the updated user is the old score
plus the delta, clamped at zero. -/
theorem update_stats_score (db : UsersDB) (uid result : String)
    (change : Int) (u : UserStats) (h : db uid = some u) :
    Option.map UserStats.score (update_stats db uid result change uid)
      = some (max 0 (u.score + change)) := by
  unfold update_stats
  rw [h]
  split_ifs <;> simp

/-- Lemma: `standard_commands` never touches the session map. -/
theorem standard_commands_sessions (st : BotState) (uid cmd : String) :
    (standard_commands st uid cmd).1.sessions = st.sessions := by
  unfold standard_commands
  split_ifs <;> rfl

/-- Lemma: `standard_commands` on anything that is not one of the three recognised
keywords produces the fixed "Unknown Command" reply and leaves the state
unchanged. -/
theorem standard_commands_unknown (st : BotState) (uid cmd : String)
    (h1 : cmd ≠ "/score") (h2 : cmd ≠ "/ladder") (h3 : cmd ≠ "/leaderboard") :
    standard_commands st uid cmd =
      (st, [Response.text
        "🤖 System: Unknown Command.<br>Type <b>/bombchip</b> to start."]) := by
  simp [standard_commands, h1, h2, h3]

/-- Parsing the start keyword as an integer fails. -/
theorem pyInt?_bombchip : pyInt? "/bombchip" = none := by decide

/-- Unfolding of `handle_command` on a start command. -/
theorem handle_command_start (st : BotState) (uid cmdRaw name avatar : String)
    (fg : List Nat) (hcmd : pyNormalize cmdRaw = "/bombchip") :
    handle_command st uid cmdRaw name avatar fg =
      ({ st with
         sessions := fun k =>
           if k = uid then some (mkGameInstance uid fg) else st.sessions k },
       [Response.image
         "⚠️ <b>MISSION START</b><br>There are 3 Hidden Bombs.<br>Tap a number or type 1-12."]) := by
  simp only [handle_command]
  rw [hcmd]
  simp

/-- Unfolding of `handle_command` on a routed move: active session and
numeric body. -/
theorem handle_command_routes_move (st : BotState)
    (uid cmdRaw name avatar : String) (fg : List Nat) (game : GameInstance)
    (v : Int) (hsess : st.sessions uid = some game)
    (hact : game.status = "ACTIVE")
    (hparse : pyInt? (pyNormalize cmdRaw) = some v) :
    handle_command st uid cmdRaw name avatar fg = routed_move st uid game v := by
  have hstart : ¬ (pyNormalize cmdRaw = "/bombchip") := by
    intro hb
    rw [hb, pyInt?_bombchip] at hparse
    exact Option.noConfusion hparse
  simp only [handle_command]
  rw [if_neg hstart, hsess]
  simp only []
  rw [if_pos hact, hparse]

/-- Unfolding of `handle_command` when the message is not a start command
and is not routed as a move (no session, inactive session, or non-numeric
body): the "Standard Commands" tail runs. -/
theorem handle_command_fallthrough (st : BotState)
    (uid cmdRaw name avatar : String) (fg : List Nat)
    (hstart : pyNormalize cmdRaw ≠ "/bombchip")
    (hroute : ∀ game, st.sessions uid = some game →
      game.status ≠ "ACTIVE" ∨ pyInt? (pyNormalize cmdRaw) = none) :
    handle_command st uid cmdRaw name avatar fg =
      standard_commands st uid (pyNormalize cmdRaw) := by
  simp only [handle_command]
  rw [if_neg hstart]
  cases hs : st.sessions uid with
  | none => rfl
  | some game =>
    simp only []
    rcases hroute game hs with h | h
    · rw [if_neg h]
    · by_cases ha : game.status = "ACTIVE"
      · rw [if_pos ha, h]
      · rw [if_neg ha]

/-- A fresh board has no revealed cell at any index. -/
theorem getD_replicate_false (n m : Nat) :
    (List.replicate n false).getD m false = false := by
  induction n generalizing m with
  | zero => rfl
  | succ k ih =>
    cases m with
    | zero => rfl
    | succ m2 => exact ih m2

/-! ## Claim theorems -/

/-- C1 (counterexample): the claim "the first reveal of a game never hits
the bomb" is false on the code: the grid is shuffled at construction with
three bombs, and on a reachable shuffle outcome the very first reveal
returns BOMB and loses the game. -/
theorem first_move_can_hit_bomb :
    validShuffle gridBombAt0 ∧
    (process_move (mkGameInstance "u" gridBombAt0) 0).2 = "BOMB" ∧
    (process_move (mkGameInstance "u" gridBombAt0) 0).1.status = "LOST" := by
  refine ⟨by decide, by decide, by decide⟩

/-- C1 (amended): bomb positions are fixed when a board is created (there is
no lazy assignment excluding the first choice); the first reveal on a fresh
board results in BOMB exactly when the chosen cell holds a bomb in the
shuffled grid, and then the board's status becomes LOST. -/
theorem first_move_loss_iff_bomb (uid : String) (g : List Nat) (i : Int)
    (h0 : 0 ≤ i) (h1 : i < 12) :
    ((process_move (mkGameInstance uid g) i).2 = "BOMB" ↔
      g.getD i.toNat 0 = 1) ∧
    ((process_move (mkGameInstance uid g) i).2 = "BOMB" →
      (process_move (mkGameInstance uid g) i).1.status = "LOST") := by
  have h1' : i < ((mkGameInstance uid g).total_chips : Int) := by
    simpa [mkGameInstance] using h1
  have hrev : (mkGameInstance uid g).revealed.getD i.toNat false = false :=
    getD_replicate_false 12 i.toNat
  rw [process_move_accepted _ i h0 h1' hrev]
  by_cases hb : (mkGameInstance uid g).grid.getD i.toNat 0 = 1
  · rw [if_pos hb]
    exact ⟨⟨fun _ => hb, fun _ => rfl⟩, fun _ => rfl⟩
  · rw [if_neg hb]
    split_ifs with hw <;> dsimp only <;>
      exact ⟨⟨fun hh => absurd hh (by decide), fun hg => absurd hg hb⟩,
             fun hh => absurd hh (by decide)⟩

/-- Witness for C1's amended theorem at a concrete in-range first move. -/
theorem first_move_loss_iff_bomb_witness :
    (0 : Int) ≤ 0 ∧ (0 : Int) < 12 ∧
    ((process_move (mkGameInstance "w" gridBombsAtEnd) 0).2 = "BOMB" ↔
      gridBombsAtEnd.getD (0 : Int).toNat 0 = 1) := by
  exact ⟨by decide, by decide,
    (first_move_loss_iff_bomb "w" gridBombsAtEnd 0 (by decide) (by decide)).1⟩

/-- C2 (counterexample): the claim "a start command while a game is active
is rejected and the existing board is left unchanged" is false on the code:
`/bombchip` with an active stored game replaces it by a fresh board and
replies with the mission-start image, not an informational rejection. -/
theorem start_with_active_game_not_rejected :
    stOneRevealed.sessions "u" = some gOneRevealed ∧
    gOneRevealed.status = "ACTIVE" ∧
    (handle_command stOneRevealed "u" "/bombchip" "n" "a" gridBombAt0).1.sessions "u"
      = some (mkGameInstance "u" gridBombAt0) ∧
    mkGameInstance "u" gridBombAt0 ≠ gOneRevealed ∧
    (handle_command stOneRevealed "u" "/bombchip" "n" "a" gridBombAt0).2
      = [Response.image
          "⚠️ <b>MISSION START</b><br>There are 3 Hidden Bombs.<br>Tap a number or type 1-12."] := by
  refine ⟨rfl, rfl, by decide, by decide, by decide⟩

/-- C2 (amended): a start command always creates and stores a fresh board,
unconditionally replacing any board already stored under the key, and
replies with the mission-start image. -/
theorem start_replaces_existing_board (st : BotState)
    (uid cmdRaw name avatar : String) (fg : List Nat)
    (hcmd : pyNormalize cmdRaw = "/bombchip") :
    (handle_command st uid cmdRaw name avatar fg).1.sessions uid
      = some (mkGameInstance uid fg) ∧
    (handle_command st uid cmdRaw name avatar fg).2 =
      [Response.image
        "⚠️ <b>MISSION START</b><br>There are 3 Hidden Bombs.<br>Tap a number or type 1-12."] := by
  rw [handle_command_start st uid cmdRaw name avatar fg hcmd]
  refine ⟨?_, rfl⟩
  dsimp only
  rw [if_pos rfl]

/-- Witness for C2's amended theorem on a state that already holds an
active game. -/
theorem start_replaces_existing_board_witness :
    pyNormalize "/bombchip" = "/bombchip" ∧
    (handle_command stOneRevealed "u" "/bombchip" "n" "a" gridBombsAtEnd).1.sessions "u"
      = some (mkGameInstance "u" gridBombsAtEnd) := by
  exact ⟨by decide,
    (start_replaces_existing_board stOneRevealed "u" "/bombchip" "n" "a"
      gridBombsAtEnd (by decide)).1⟩

/-- C3 (counterexample): the claim "Win exactly when the Safe count equals
size - 1" is false on the code: the board wins when the Safe count reaches
total_chips - bomb_count = 9, not 12 - 1 = 11. -/
theorem win_at_nine_not_eleven :
    gEightSafe.status = "ACTIVE" ∧
    (process_move gEightSafe 8).2 = "WIN" ∧
    countSafeFound (process_move gEightSafe 8).1 = 9 ∧
    gEightSafe.total_chips = 12 ∧ (9 : Nat) ≠ 12 - 1 := by
  refine ⟨rfl, by decide, by decide, rfl, by decide⟩

/-- C3 (amended): an accepted non-bomb reveal results in WIN exactly when
the count of revealed safe cells equals total_chips - bomb_count (every
non-bomb cell revealed), and at that moment the status becomes WON. -/
theorem win_iff_all_safe_found (g : GameInstance) (i : Int)
    (h0 : 0 ≤ i) (h1 : i < (g.total_chips : Int))
    (hrev : g.revealed.getD i.toNat false = false)
    (hsafe : g.grid.getD i.toNat 0 ≠ 1) :
    ((process_move g i).2 = "WIN" ↔
      countSafeFound (process_move g i).1 = g.total_chips - g.bomb_count) ∧
    ((process_move g i).2 = "WIN" → (process_move g i).1.status = "WON") := by
  rw [process_move_accepted g i h0 h1 hrev, if_neg hsafe]
  split_ifs with hw <;> dsimp only
  · exact ⟨⟨fun _ => hw, fun _ => rfl⟩, fun _ => rfl⟩
  · exact ⟨⟨fun hh => absurd hh (by decide), fun hc => absurd hc hw⟩,
           fun hh => absurd hh (by decide)⟩

/-- Witness for C3's amended theorem at the ninth safe reveal. -/
theorem win_iff_all_safe_found_witness :
    (0 : Int) ≤ 8 ∧ (8 : Int) < (gEightSafe.total_chips : Int) ∧
    gEightSafe.revealed.getD (8 : Int).toNat false = false ∧
    gEightSafe.grid.getD (8 : Int).toNat 0 ≠ 1 ∧
    ((process_move gEightSafe 8).2 = "WIN" ↔
      countSafeFound (process_move gEightSafe 8).1
        = gEightSafe.total_chips - gEightSafe.bomb_count) := by
  exact ⟨by decide, by decide, by decide, by decide,
    (win_iff_all_safe_found gEightSafe 8 (by decide) (by decide) (by decide)
      (by decide)).1⟩

/-- C4 (counterexample): the claim "every board contains exactly one bomb"
is false on the code: a reachable board carries three bomb cells. -/
theorem board_not_single_bomb :
    validShuffle gridBombsAtEnd ∧
    (mkGameInstance "u" gridBombsAtEnd).grid.count 1 = 3 ∧ (3 : Nat) ≠ 1 := by
  refine ⟨by decide, by decide, by decide⟩

/-- C4 (amended): every freshly created board carries exactly three bomb
cells and nine safe cells among its twelve chips. -/
theorem board_has_three_bombs (uid : String) (g : List Nat)
    (h : validShuffle g) :
    (mkGameInstance uid g).grid.count 1 = 3 ∧
    (mkGameInstance uid g).grid.count 0 = 9 ∧
    (mkGameInstance uid g).grid.length = 12 := by
  refine ⟨?_, ?_, ?_⟩
  · show g.count 1 = 3
    rw [h.count_eq 1]
    decide
  · show g.count 0 = 9
    rw [h.count_eq 0]
    decide
  · show g.length = 12
    rw [h.length_eq]
    decide

/-- Witness for C4's amended theorem on a concrete shuffle outcome. -/
theorem board_has_three_bombs_witness :
    validShuffle gridBombAt0 ∧
    (mkGameInstance "w" gridBombAt0).grid.count 1 = 3 := by
  exact ⟨by decide, (board_has_three_bombs "w" gridBombAt0 (by decide)).1⟩

/-- C5 (counterexample): the claim "a reveal on an inactive board is
rejected and mutates nothing" is false at the board level: `process_move`
performs no activity check, so a reveal on a LOST board still mutates the
reveal state and returns SAFE. -/
theorem inactive_board_reveal_mutates :
    gLost.status = "LOST" ∧
    (process_move gLost 0).2 = "SAFE" ∧
    (process_move gLost 0).1.revealed ≠ gLost.revealed := by
  refine ⟨rfl, by decide, by decide⟩

/-- C5 (amended): the inactivity guard lives in the dispatcher, not in
`process_move`: while the stored session is inactive, any non-start message
is never routed as a move and leaves the session map untouched (finished
boards are in fact deleted by the dispatcher in the same step, so no move
ever reaches them through `handle_command`). -/
theorem inactive_board_not_routed (st : BotState)
    (uid cmdRaw name avatar : String) (fg : List Nat) (game : GameInstance)
    (hsess : st.sessions uid = some game)
    (hinact : game.status ≠ "ACTIVE")
    (hstart : pyNormalize cmdRaw ≠ "/bombchip") :
    (handle_command st uid cmdRaw name avatar fg).1.sessions = st.sessions ∧
    (handle_command st uid cmdRaw name avatar fg).1.sessions uid
      = some game := by
  have hroute : ∀ g2, st.sessions uid = some g2 →
      g2.status ≠ "ACTIVE" ∨ pyInt? (pyNormalize cmdRaw) = none := by
    intro g2 hg
    rw [hsess] at hg
    injection hg with hg2
    subst hg2
    exact Or.inl hinact
  rw [handle_command_fallthrough st uid cmdRaw name avatar fg hstart hroute]
  refine ⟨standard_commands_sessions st uid _, ?_⟩
  rw [standard_commands_sessions st uid _]
  exact hsess

/-- Witness for C5's amended theorem: a numeric message sent while the
stored board is LOST does not touch the session map. -/
theorem inactive_board_not_routed_witness :
    stLost.sessions "u" = some gLost ∧ gLost.status ≠ "ACTIVE" ∧
    pyNormalize "3" ≠ "/bombchip" ∧
    (handle_command stLost "u" "3" "n" "a" gridBombAt0).1.sessions "u"
      = some gLost := by
  exact ⟨rfl, by decide, by decide,
    (inactive_board_not_routed stLost "u" "3" "n" "a" gridBombAt0 gLost rfl
      (by decide) (by decide)).2⟩

/-- C6 (confirmed): replaying an already-revealed chip index is rejected
with the fixed informational reply; the stored board and the user stats are
both left unchanged (no stats update is emitted). -/
theorem replay_revealed_chip_rejected (st : BotState)
    (uid cmdRaw name avatar : String) (fg : List Nat) (game : GameInstance)
    (v : Int)
    (hsess : st.sessions uid = some game) (hact : game.status = "ACTIVE")
    (hparse : pyInt? (pyNormalize cmdRaw) = some v)
    (h0 : 0 ≤ v - 1) (h1 : v - 1 < (game.total_chips : Int))
    (hrev : game.revealed.getD (v - 1).toNat false = true) :
    (handle_command st uid cmdRaw name avatar fg).1.users = st.users ∧
    (handle_command st uid cmdRaw name avatar fg).1.sessions uid = some game ∧
    (handle_command st uid cmdRaw name avatar fg).2 =
      [Response.text "🚫 Chip already eaten. Pick another."] := by
  rw [handle_command_routes_move st uid cmdRaw name avatar fg game v hsess
      hact hparse]
  have hpm := process_move_already_open game (v - 1) h0 h1 hrev
  simp only [routed_move, hpm]
  simp

/-- Witness for C6 on a board whose chip 1 is already revealed. -/
theorem replay_revealed_chip_rejected_witness :
    stOneRevealed.sessions "u" = some gOneRevealed ∧
    gOneRevealed.revealed.getD ((1 : Int) - 1).toNat false = true ∧
    (handle_command stOneRevealed "u" "1" "n" "a" gridBombAt0).1.users
      = stOneRevealed.users ∧
    (handle_command stOneRevealed "u" "1" "n" "a" gridBombAt0).2 =
      [Response.text "🚫 Chip already eaten. Pick another."] := by
  have h := replay_revealed_chip_rejected stOneRevealed "u" "1" "n" "a"
    gridBombAt0 gOneRevealed 1 rfl rfl (by decide) (by decide) (by decide)
    (by decide)
  exact ⟨rfl, by decide, h.1, h.2.2⟩

/-- C7 (counterexample): the claim "unrecognized text produces no reply at
all" is false on the code: an unrecognized message is answered with the
fixed "Unknown Command" text. -/
theorem unrecognized_text_not_silent :
    (handle_command stEmpty "u" "hello" "n" "a" gridBombAt0).2
      ≠ ([] : List Response) ∧
    (handle_command stEmpty "u" "hello" "n" "a" gridBombAt0).2 =
      [Response.text
        "🤖 System: Unknown Command.<br>Type <b>/bombchip</b> to start."] := by
  refine ⟨by decide, by decide⟩

/-- C7 (amended): text that is neither a recognised command keyword nor a
message routed as a numeric move receives the fixed "Unknown Command"
informational reply — the dispatcher is never silent — and the state is
unchanged. -/
theorem unrecognized_text_gets_reply (st : BotState)
    (uid cmdRaw name avatar : String) (fg : List Nat)
    (h1 : pyNormalize cmdRaw ≠ "/bombchip")
    (h2 : pyNormalize cmdRaw ≠ "/score")
    (h3 : pyNormalize cmdRaw ≠ "/ladder")
    (h4 : pyNormalize cmdRaw ≠ "/leaderboard")
    (h5 : pyInt? (pyNormalize cmdRaw) = none) :
    handle_command st uid cmdRaw name avatar fg =
      (st, [Response.text
        "🤖 System: Unknown Command.<br>Type <b>/bombchip</b> to start."]) := by
  rw [handle_command_fallthrough st uid cmdRaw name avatar fg h1
      (fun g2 _ => Or.inr h5)]
  exact standard_commands_unknown st uid _ h2 h3 h4

/-- Witness for C7's amended theorem on the message "hello". -/
theorem unrecognized_text_gets_reply_witness :
    pyNormalize "hello" ≠ "/bombchip" ∧ pyInt? (pyNormalize "hello") = none ∧
    handle_command stOneRevealed "u2" "hello" "n" "a" gridBombAt0 =
      (stOneRevealed, [Response.text
        "🤖 System: Unknown Command.<br>Type <b>/bombchip</b> to start."]) := by
  exact ⟨by decide, by decide,
    unrecognized_text_gets_reply stOneRevealed "u2" "hello" "n" "a" gridBombAt0
      (by decide) (by decide) (by decide) (by decide) (by decide)⟩

/-- C8 (confirmed): every accepted reveal carries exactly one score delta
with the fixed constants — BOMB (loss) writes -50, WIN writes +100, a
non-terminal SAFE writes +10 — and the dispatcher applies that delta to the
player's recorded score exactly once per reveal (the new score is the old
score plus the delta, clamped at zero, with no compounding). -/
theorem reward_schedule_applied_once (st : BotState)
    (uid cmdRaw name avatar : String) (fg : List Nat) (game : GameInstance)
    (v : Int) (u : UserStats)
    (hsess : st.sessions uid = some game) (hact : game.status = "ACTIVE")
    (hparse : pyInt? (pyNormalize cmdRaw) = some v)
    (huser : st.users uid = some u)
    (hres : (process_move game (v - 1)).2 = "BOMB" ∨
            (process_move game (v - 1)).2 = "WIN" ∨
            (process_move game (v - 1)).2 = "SAFE") :
    ((process_move game (v - 1)).2 = "BOMB" →
        (process_move game (v - 1)).1.score_gain = -50) ∧
    ((process_move game (v - 1)).2 = "WIN" →
        (process_move game (v - 1)).1.score_gain = 100) ∧
    ((process_move game (v - 1)).2 = "SAFE" →
        (process_move game (v - 1)).1.score_gain = 10) ∧
    Option.map UserStats.score
        ((handle_command st uid cmdRaw name avatar fg).1.users uid)
      = some (max 0 (u.score + (process_move game (v - 1)).1.score_gain)) := by
  obtain ⟨hB, hW, hS⟩ := process_move_result_spec game (v - 1)
  refine ⟨fun h => (hB h).1, fun h => (hW h).1, fun h => (hS h).1, ?_⟩
  rw [handle_command_routes_move st uid cmdRaw name avatar fg game v hsess
      hact hparse]
  simp only [routed_move]
  rcases hres with h | h | h
  · rw [if_neg (by rw [h]; decide), if_neg (by rw [h]; decide)]
    rw [(hB h).2]
    rw [if_neg (by decide : ¬(("LOST" : String) = "WON")), if_pos rfl]
    dsimp only
    exact update_stats_score st.users uid "LOST" _ u huser
  · rw [if_neg (by rw [h]; decide), if_neg (by rw [h]; decide)]
    rw [(hW h).2]
    rw [if_pos rfl]
    dsimp only
    exact update_stats_score st.users uid "WON" _ u huser
  · rw [if_neg (by rw [h]; decide), if_neg (by rw [h]; decide)]
    rw [(hS h).2, hact]
    rw [if_neg (by decide : ¬(("ACTIVE" : String) = "WON")),
        if_neg (by decide : ¬(("ACTIVE" : String) = "LOST"))]
    dsimp only
    exact update_stats_score st.users uid "ACTIVE" _ u huser

/-- Witness for C8: a safe reveal on chip 2 adds exactly +10 to the stored
score of 30. -/
theorem reward_schedule_applied_once_witness :
    stOneRevealed.sessions "u" = some gOneRevealed ∧
    stOneRevealed.users "u" = some uThirty ∧
    Option.map UserStats.score
        ((handle_command stOneRevealed "u" "2" "n" "a" gridBombAt0).1.users "u")
      = some 40 := by
  refine ⟨rfl, rfl, ?_⟩
  have h := (reward_schedule_applied_once stOneRevealed "u" "2" "n" "a"
    gridBombAt0 gOneRevealed 2 uThirty rfl rfl (by decide) rfl
    (by decide)).2.2.2
  rw [h]
  decide

/-- C9 (confirmed, modelled from the spec): in the Connection Supervisor, a
login-failure event received while Authenticating moves the machine to
Disconnected and sends nothing; moreover, over any event trace that
contains no login-success event, no room-join request is ever sent. -/
theorem login_failure_no_room_join (evs : List ConnEvent)
    (hnosucc : ConnEvent.loginSuccess ∉ evs) :
    connStep ConnState.authenticating ConnEvent.loginFailure
      = (ConnState.disconnected, []) ∧
    OutMsg.roomJoin ∉ (connRun ConnState.authenticating evs).2 := by
  refine ⟨rfl, ?_⟩
  have key : ∀ (s : ConnState) (l : List ConnEvent),
      ConnEvent.loginSuccess ∉ l → OutMsg.roomJoin ∉ (connRun s l).2 := by
    intro s l
    induction l generalizing s with
    | nil => intro _ hm; exact absurd hm (by simp [connRun])
    | cons e es ih =>
      intro hno hm
      simp only [connRun, List.mem_append] at hm
      rcases hm with hm | hm
      · have he : e = ConnEvent.loginSuccess := by
          cases s <;> cases e <;> simp_all [connStep]
        subst he
        exact hno (List.mem_cons_self _ _)
      · exact ih (connStep s e).1 (fun hx => hno (List.mem_cons_of_mem e hx)) hm
  exact key ConnState.authenticating evs hnosucc

/-- Witness for C9 on the trace [login failure, transport close]. -/
theorem login_failure_no_room_join_witness :
    ConnEvent.loginSuccess
        ∉ [ConnEvent.loginFailure, ConnEvent.transportClose] ∧
    OutMsg.roomJoin ∉
      (connRun ConnState.authenticating
        [ConnEvent.loginFailure, ConnEvent.transportClose]).2 := by
  exact ⟨by decide, (login_failure_no_room_join _ (by decide)).2⟩

/-- C10 (confirmed): a stats update stores max(0, old score + delta), so the
recorded score never becomes negative — a -50 loss delta on a score below
50 only deducts down to zero. -/
theorem stored_score_never_negative (db : UsersDB) (uid result : String)
    (change : Int) (u : UserStats) (h : db uid = some u) :
    Option.map UserStats.score (update_stats db uid result change uid)
      = some (max 0 (u.score + change)) ∧
    ∀ w, update_stats db uid result change uid = some w → 0 ≤ w.score := by
  have hs := update_stats_score db uid result change u h
  refine ⟨hs, fun w hw => ?_⟩
  rw [hw] at hs
  have hw2 : w.score = max 0 (u.score + change) := by simpa using hs
  rw [hw2]
  exact le_max_left 0 _

/-- Witness for C10: a -50 delta on a stored score of 30 clamps to 0. -/
theorem stored_score_never_negative_witness :
    dbThirty "u" = some uThirty ∧ uThirty.score = 30 ∧
    Option.map UserStats.score (update_stats dbThirty "u" "LOST" (-50) "u")
      = some 0 := by
  refine ⟨rfl, rfl, ?_⟩
  have h := (stored_score_never_negative dbThirty "u" "LOST" (-50) uThirty
    rfl).1
  rw [h]
  decide
